import Mathlib

set_option linter.unusedVariables false

/-!
Verification of the engine-interface layer of the repository
(`src/lib/sqlalchemy/engine/interfaces.py` and the row fixture in
`src/test/aaa_profiling/test_resultset.py`).

The interfaces file declares the abstract `Dialect`, `ExecutionContext` and
`ExceptionContext` contracts.  Abstract methods whose Python body is
`raise NotImplementedError()` are embedded as functions returning
`Except DialectError _` with value `.error .notImplemented`.  Components whose
implementation lives outside the provided sources (the default dialect, the
transaction manager, the result-row lookup, the exception translator) are
modelled from the specification; each such definition carries a doc comment
starting `Modelled from the spec:`.
-/

/-- A SQLAlchemy `Connection` object, opaque at this layer. -/
structure Connection where
  id : Nat
deriving DecidableEq, Repr

/-- A SQLAlchemy `Engine` object, opaque at this layer. -/
structure Engine where
  id : Nat
deriving DecidableEq, Repr

/-- A raw DB-API connection, opaque at this layer. -/
structure DBAPIConnection where
  id : Nat
deriving DecidableEq, Repr

/-- A raw DB-API cursor, opaque at this layer. -/
structure Cursor where
  id : Nat
deriving DecidableEq, Repr

/-- A parsed connection URL: `create_connect_args` consumes one. -/
structure URL where
  drivername : String
  query : List (String × String)
deriving DecidableEq, Repr

/-- A generic (dialect-neutral) type object, opaque at this layer. -/
abbrev GenericType := Nat

/-- A dialect-specific type object, opaque at this layer. -/
abbrev BackendType := Nat

/-- A two-phase transaction identifier; its format is unspecified by the
source (`create_xid` docstring), so it is opaque here. -/
abbrev Xid := String

/-- A positional argument value for the driver connect call. -/
abbrev ConnArg := String

/-- A bound-parameter collection, opaque at this layer. -/
abbrev Params := List String

/-- Error raised by abstract-base methods: `raise NotImplementedError()`. -/
inductive DialectError where
  | notImplemented
deriving DecidableEq, Repr

/-- Column record shape returned by `get_columns` (its docstring). -/
structure ColumnRecord where
  name : String
  type : GenericType
  nullable : Bool
  default : Option String
  autoincrement : Bool
deriving DecidableEq, Repr

/-- Primary-key record shape returned by `get_pk_constraint` (its docstring). -/
structure PKConstraintRecord where
  constrained_columns : List String
  name : Option String
deriving DecidableEq, Repr

/-- Foreign-key record shape returned by `get_foreign_keys` (its docstring). -/
structure ForeignKeyRecord where
  name : Option String
  constrained_columns : List String
  referred_schema : Option String
  referred_table : String
  referred_columns : List String
deriving DecidableEq, Repr

/-- Index record shape returned by `get_indexes` (its docstring):
`name`, `column_names`, `unique`. -/
structure IndexRecord where
  name : String
  column_names : List String
  unique : Bool
deriving DecidableEq, Repr

namespace Dialect

/-- `Dialect.create_connect_args` (interfaces.py:150-181): body is
`raise NotImplementedError()`. -/
def create_connect_args (url : URL) :
    Except DialectError (List ConnArg × List (String × ConnArg)) :=
  .error .notImplemented

/-- `Dialect.type_descriptor` (interfaces.py:183-196): a classmethod whose
body is `raise NotImplementedError()`. -/
def type_descriptor (typeobj : GenericType) : Except DialectError BackendType :=
  .error .notImplemented

/-- `Dialect.get_columns` (interfaces.py:215-246): body is
`raise NotImplementedError()`. -/
def get_columns (connection : Connection) (table_name : String)
    (schema : Option String) : Except DialectError (List ColumnRecord) :=
  .error .notImplemented

/-- `Dialect.get_pk_constraint` (interfaces.py:248-263). -/
def get_pk_constraint (connection : Connection) (table_name : String)
    (schema : Option String) : Except DialectError PKConstraintRecord :=
  .error .notImplemented

/-- `Dialect.get_foreign_keys` (interfaces.py:265-289). -/
def get_foreign_keys (connection : Connection) (table_name : String)
    (schema : Option String) : Except DialectError (List ForeignKeyRecord) :=
  .error .notImplemented

/-- `Dialect.get_table_names` (interfaces.py:291-294). -/
def get_table_names (connection : Connection) (schema : Option String) :
    Except DialectError (List String) :=
  .error .notImplemented

/-- `Dialect.get_view_names` (interfaces.py:304-311). -/
def get_view_names (connection : Connection) (schema : Option String) :
    Except DialectError (List String) :=
  .error .notImplemented

/-- `Dialect.get_indexes` (interfaces.py:331-348). -/
def get_indexes (connection : Connection) (table_name : String)
    (schema : Option String) : Except DialectError (List IndexRecord) :=
  .error .notImplemented

/-- `Dialect.has_table` (interfaces.py:434-443). -/
def has_table (connection : Connection) (table_name : String)
    (schema : Option String) : Except DialectError Bool :=
  .error .notImplemented

/-- `Dialect.has_index` (interfaces.py:445-461). -/
def has_index (connection : Connection) (table_name : String)
    (index_name : String) (schema : Option String) : Except DialectError Bool :=
  .error .notImplemented

/-- `Dialect.has_sequence` (interfaces.py:463-471). -/
def has_sequence (connection : Connection) (sequence_name : String)
    (schema : Option String) : Except DialectError Bool :=
  .error .notImplemented

/-- `Dialect.do_begin` (interfaces.py:496-518). -/
def do_begin (dbapi_connection : DBAPIConnection) : Except DialectError Unit :=
  .error .notImplemented

/-- `Dialect.do_rollback` (interfaces.py:520-529). -/
def do_rollback (dbapi_connection : DBAPIConnection) :
    Except DialectError Unit :=
  .error .notImplemented

/-- `Dialect.do_commit` (interfaces.py:531-540). -/
def do_commit (dbapi_connection : DBAPIConnection) : Except DialectError Unit :=
  .error .notImplemented

/-- `Dialect.do_close` (interfaces.py:542-553). -/
def do_close (dbapi_connection : DBAPIConnection) : Except DialectError Unit :=
  .error .notImplemented

/-- `Dialect.create_xid` (interfaces.py:555-563). -/
def create_xid : Except DialectError Xid :=
  .error .notImplemented

/-- `Dialect.do_savepoint` (interfaces.py:565-573). -/
def do_savepoint (connection : Connection) (name : String) :
    Except DialectError Unit :=
  .error .notImplemented

/-- `Dialect.do_rollback_to_savepoint` (interfaces.py:575-583). -/
def do_rollback_to_savepoint (connection : Connection) (name : String) :
    Except DialectError Unit :=
  .error .notImplemented

/-- `Dialect.do_release_savepoint` (interfaces.py:585-592). -/
def do_release_savepoint (connection : Connection) (name : String) :
    Except DialectError Unit :=
  .error .notImplemented

/-- `Dialect.do_begin_twophase` (interfaces.py:594-602). -/
def do_begin_twophase (connection : Connection) (xid : Xid) :
    Except DialectError Unit :=
  .error .notImplemented

/-- `Dialect.do_prepare_twophase` (interfaces.py:604-612). -/
def do_prepare_twophase (connection : Connection) (xid : Xid) :
    Except DialectError Unit :=
  .error .notImplemented

/-- `Dialect.do_rollback_twophase` (interfaces.py:614-627). -/
def do_rollback_twophase (connection : Connection) (xid : Xid)
    (is_prepared : Bool) (recover : Bool) : Except DialectError Unit :=
  .error .notImplemented

/-- `Dialect.do_commit_twophase` (interfaces.py:629-643). -/
def do_commit_twophase (connection : Connection) (xid : Xid)
    (is_prepared : Bool) (recover : Bool) : Except DialectError Unit :=
  .error .notImplemented

/-- `Dialect.do_recover_twophase` (interfaces.py:645-653). -/
def do_recover_twophase (connection : Connection) :
    Except DialectError (List Xid) :=
  .error .notImplemented

/-- `Dialect.do_executemany` (interfaces.py:655-659). -/
def do_executemany (cursor : Cursor) (statement : String)
    (parameters : List Params) (context : Option Unit) :
    Except DialectError Unit :=
  .error .notImplemented

/-- `Dialect.do_execute` (interfaces.py:661-665). -/
def do_execute (cursor : Cursor) (statement : String) (parameters : Params)
    (context : Option Unit) : Except DialectError Unit :=
  .error .notImplemented

/-- `Dialect.do_execute_no_params` (interfaces.py:667-676). -/
def do_execute_no_params (cursor : Cursor) (statement : String)
    (parameters : Params) (context : Option Unit) : Except DialectError Unit :=
  .error .notImplemented

/-- `Dialect.is_disconnect` (interfaces.py:678-682). -/
def is_disconnect (e : String) (connection : Option DBAPIConnection)
    (cursor : Option Cursor) : Except DialectError Bool :=
  .error .notImplemented

end Dialect

/-- Claim C4: every abstract-capability method of the base `Dialect` class that
the spec gives no generic default — `create_connect_args`, `type_descriptor`,
the catalog introspection methods, the transaction primitives, the savepoint
primitives, the two-phase primitives, the execute adapters and
`is_disconnect` — fails with a "not implemented" error on the abstract base,
for all argument values. -/
theorem dialect_abstract_base_raises_not_implemented :
    (∀ url, Dialect.create_connect_args url = .error .notImplemented) ∧
    (∀ t, Dialect.type_descriptor t = .error .notImplemented) ∧
    (∀ c tbl sch, Dialect.get_columns c tbl sch = .error .notImplemented) ∧
    (∀ c tbl sch, Dialect.get_pk_constraint c tbl sch
      = .error .notImplemented) ∧
    (∀ c tbl sch, Dialect.get_foreign_keys c tbl sch
      = .error .notImplemented) ∧
    (∀ c sch, Dialect.get_table_names c sch = .error .notImplemented) ∧
    (∀ c sch, Dialect.get_view_names c sch = .error .notImplemented) ∧
    (∀ c tbl sch, Dialect.get_indexes c tbl sch = .error .notImplemented) ∧
    (∀ c tbl sch, Dialect.has_table c tbl sch = .error .notImplemented) ∧
    (∀ c tbl idx sch, Dialect.has_index c tbl idx sch
      = .error .notImplemented) ∧
    (∀ c sq sch, Dialect.has_sequence c sq sch = .error .notImplemented) ∧
    (∀ dc, Dialect.do_begin dc = .error .notImplemented) ∧
    (∀ dc, Dialect.do_rollback dc = .error .notImplemented) ∧
    (∀ dc, Dialect.do_commit dc = .error .notImplemented) ∧
    (∀ dc, Dialect.do_close dc = .error .notImplemented) ∧
    (Dialect.create_xid = .error .notImplemented) ∧
    (∀ c n, Dialect.do_savepoint c n = .error .notImplemented) ∧
    (∀ c n, Dialect.do_rollback_to_savepoint c n = .error .notImplemented) ∧
    (∀ c n, Dialect.do_release_savepoint c n = .error .notImplemented) ∧
    (∀ c x, Dialect.do_begin_twophase c x = .error .notImplemented) ∧
    (∀ c x, Dialect.do_prepare_twophase c x = .error .notImplemented) ∧
    (∀ c x p r, Dialect.do_rollback_twophase c x p r
      = .error .notImplemented) ∧
    (∀ c x p r, Dialect.do_commit_twophase c x p r
      = .error .notImplemented) ∧
    (∀ c, Dialect.do_recover_twophase c = .error .notImplemented) ∧
    (∀ cu st ps cx, Dialect.do_executemany cu st ps cx
      = .error .notImplemented) ∧
    (∀ cu st ps cx, Dialect.do_execute cu st ps cx
      = .error .notImplemented) ∧
    (∀ cu st ps cx, Dialect.do_execute_no_params cu st ps cx
      = .error .notImplemented) ∧
    (∀ e c cu, Dialect.is_disconnect e c cu = .error .notImplemented) :=
  ⟨fun _ => rfl, fun _ => rfl, fun _ _ _ => rfl, fun _ _ _ => rfl,
   fun _ _ _ => rfl, fun _ _ => rfl, fun _ _ => rfl, fun _ _ _ => rfl,
   fun _ _ _ => rfl, fun _ _ _ _ => rfl, fun _ _ _ => rfl, fun _ => rfl,
   fun _ => rfl, fun _ => rfl, fun _ => rfl, rfl, fun _ _ => rfl,
   fun _ _ => rfl, fun _ _ => rfl, fun _ _ => rfl, fun _ _ => rfl,
   fun _ _ _ _ => rfl, fun _ _ _ _ => rfl, fun _ => rfl,
   fun _ _ _ _ => rfl, fun _ _ _ _ => rfl, fun _ _ _ _ => rfl,
   fun _ _ _ => rfl⟩

/-- Error for savepoint operations naming a savepoint that does not exist. -/
inductive SavepointError where
  | noSuchSavepoint
deriving DecidableEq, Repr

/-- Modelled from the spec: the Transaction Manager's savepoint state — "A
transaction owns zero or more nested savepoints, each identified by a
driver-opaque name; savepoints form a stack" (spec §3).  The concrete
transaction-manager code is not under `src/`; `src` holds only the abstract
`Dialect.do_savepoint` declarations.  The stack's head is the most recently
pushed savepoint. -/
abbrev SavepointStack := List String

/-- Modelled from the spec: "`do_savepoint(name)` pushes a named entry"
(spec §4.3). -/
def sp_do_savepoint (st : SavepointStack) (name : String) : SavepointStack :=
  name :: st

/-- Modelled from the spec: "`do_rollback_to_savepoint(name)` pops every
savepoint pushed after `name` and leaves `name` itself active" (spec §4.3);
fails when no savepoint of that name exists. -/
def sp_do_rollback_to_savepoint (st : SavepointStack) (name : String) :
    Except SavepointError SavepointStack :=
  if st.contains name then
    .ok (st.dropWhile (fun n => n != name))
  else
    .error .noSuchSavepoint

/-- Modelled from the spec: "`do_release_savepoint(name)` pops exactly
`name`" (spec §4.3); fails when no savepoint of that name exists. -/
def sp_do_release_savepoint (st : SavepointStack) (name : String) :
    Except SavepointError SavepointStack :=
  if st.contains name then
    .ok (st.erase name)
  else
    .error .noSuchSavepoint

/-- Helper: dropping savepoints up to the first occurrence of `name` leaves
`name` and everything pushed before it. -/
theorem sp_dropWhile_to_name (pushedAfter rest : List String) (name : String)
    (hmem : name ∉ pushedAfter) :
    (pushedAfter ++ name :: rest).dropWhile (fun n => n != name)
      = name :: rest := by
  induction pushedAfter with
  | nil => simp [List.dropWhile]
  | cons a as ih =>
      have ha : (a != name) = true := by
        have h1 : a ≠ name := fun h => hmem (by simp [h])
        simp [h1]
      have h2 : name ∉ as := fun h => hmem (by simp [h])
      simp only [List.cons_append, List.dropWhile, ha]
      exact ih h2

/-- Claim C2: `do_savepoint` pushes a named entry, `do_rollback_to_savepoint`
pops every savepoint pushed after `name` while leaving `name` itself active,
`do_release_savepoint` pops exactly `name`; and after `do_savepoint "sp1"`,
`do_savepoint "sp2"`, `do_rollback_to_savepoint "sp1"`, a subsequent
`do_release_savepoint "sp2"` fails because `sp2` no longer exists. -/
theorem savepoint_stack_semantics (pushedAfter rest : List String)
    (name : String) (hmem : name ∉ pushedAfter) :
    (∀ st n, sp_do_savepoint st n = n :: st) ∧
    sp_do_rollback_to_savepoint (pushedAfter ++ name :: rest) name
      = .ok (name :: rest) ∧
    sp_do_release_savepoint (pushedAfter ++ name :: rest) name
      = .ok (pushedAfter ++ rest) ∧
    (sp_do_rollback_to_savepoint
        (sp_do_savepoint (sp_do_savepoint [] "sp1") "sp2") "sp1"
      = .ok ["sp1"] ∧
     sp_do_release_savepoint ["sp1"] "sp2" = .error .noSuchSavepoint) := by
  have hc : (pushedAfter ++ name :: rest).contains name = true := by
    simp
  refine ⟨fun _ _ => rfl, ?_, ?_, ⟨rfl, rfl⟩⟩
  · simp [sp_do_rollback_to_savepoint, hc,
      sp_dropWhile_to_name pushedAfter rest name hmem]
  · have he : (pushedAfter ++ name :: rest).erase name
        = pushedAfter ++ rest := by
      rw [List.erase_append_right _ hmem, List.erase_cons_head]
    simp [sp_do_release_savepoint, hc, he]

/-- Witness for C2: the savepoint-stack theorem applied at the concrete stack
`["sp2", "sp1"]` with `name = "sp1"`: rolling back to `sp1` yields `["sp1"]`,
releasing `sp1` from that stack yields `[]`, and the `sp1`/`sp2` scenario's
final release fails. -/
theorem savepoint_stack_semantics_witness :
    "sp1" ∉ (["sp2"] : List String) ∧
    sp_do_rollback_to_savepoint ["sp2", "sp1"] "sp1" = .ok ["sp1"] ∧
    sp_do_release_savepoint ["sp1"] "sp2" = .error .noSuchSavepoint :=
  ⟨by decide,
   (savepoint_stack_semantics ["sp2"] [] "sp1" (by decide)).2.1,
   (savepoint_stack_semantics ["sp2"] [] "sp1" (by decide)).2.2.2.2⟩

/-- Error for transaction operations attempted from an invalid state. -/
inductive TxError where
  | invalidState
deriving DecidableEq, Repr

/-- Modelled from the spec: transaction states "{not-started, active,
prepared (two-phase only), committed, rolled-back}" (spec §3); an active
two-phase transaction additionally carries its `xid`, "generated once via the
Dialect and passed unchanged through prepare/commit/rollback" (spec §3). -/
inductive TxState where
  | notStarted
  | active
  | activeTwophase (xid : Xid)
  | prepared (xid : Xid)
  | committed
  | rolledBack
deriving DecidableEq, Repr

/-- Modelled from the spec: `do_begin` starts a plain transaction — "Begin ...
map 1:1 onto `do_begin` ... for the non-nested, non-two-phase case"
(spec §4.3). -/
def tx_do_begin : TxState → Except TxError TxState
  | .notStarted => .ok .active
  | _ => .error .invalidState

/-- Modelled from the spec: `do_commit` commits an active plain transaction
(spec §4.3). -/
def tx_do_commit : TxState → Except TxError TxState
  | .active => .ok .committed
  | _ => .error .invalidState

/-- Modelled from the spec: `do_begin_twophase(xid)` begins a two-phase
transaction carrying `xid` (spec §4.3). -/
def tx_do_begin_twophase (xid : Xid) : TxState → Except TxError TxState
  | .notStarted => .ok (.activeTwophase xid)
  | _ => .error .invalidState

/-- Modelled from the spec: `do_prepare_twophase(xid)` moves an active
two-phase transaction with the same `xid` to the prepared state (spec §4.3). -/
def tx_do_prepare_twophase (xid : Xid) : TxState → Except TxError TxState
  | .activeTwophase x => if x = xid then .ok (.prepared xid)
                         else .error .invalidState
  | _ => .error .invalidState

/-- Modelled from the spec: `do_commit_twophase(xid, is_prepared, recover)`
commits a two-phase transaction; with `is_prepared = true` the transaction
must be in the prepared state, with `is_prepared = false` it "never reached
the prepare phase" (spec §4.1) and is committed from its active state. -/
def tx_do_commit_twophase (xid : Xid) (is_prepared : Bool) :
    TxState → Except TxError TxState
  | .prepared x => if is_prepared && x == xid then .ok .committed
                   else .error .invalidState
  | .activeTwophase x => if !is_prepared && x == xid then .ok .committed
                         else .error .invalidState
  | _ => .error .invalidState

/-- Claim C3: executing `do_begin_twophase(xid)`, then
`do_prepare_twophase(xid)`, then `do_commit_twophase(xid, is_prepared=True)`
from a not-started state leaves the transaction in the same final committed
state as the non-two-phase `do_begin` followed by `do_commit`. -/
theorem twophase_commit_equiv_plain_commit (xid : Xid) :
    ((tx_do_begin_twophase xid .notStarted).bind
        (tx_do_prepare_twophase xid)).bind (tx_do_commit_twophase xid true)
      = (tx_do_begin .notStarted).bind tx_do_commit ∧
    ((tx_do_begin_twophase xid .notStarted).bind
        (tx_do_prepare_twophase xid)).bind (tx_do_commit_twophase xid true)
      = .ok .committed := by
  simp [tx_do_begin_twophase, tx_do_prepare_twophase, tx_do_commit_twophase,
    tx_do_begin, tx_do_commit, Except.bind]

/-- A key usable to look a value up in a result row: a column object, a
column-name string, or a positional integer index
(`RowTest._rowproxy_fixture` uses all three kinds). -/
inductive RowKey where
  | col (c : Nat)
  | name (s : String)
  | pos (i : Nat)
deriving BEq, DecidableEq, Repr

/-- A row value; the row fixture tests use strings. -/
abbrev RowValue := String

/-- A keymap: key-to-index association list.  The source's keymap is a Python
dict whose values are `(index, key)` pairs; lookup consults only the index, so
the model stores the index.  A later dict write shadows an earlier one, which
prepending plus first-match lookup reproduces. -/
abbrev Keymap := List (RowKey × Nat)

/-- One step of the `RowTest._rowproxy_fixture` keymap loop
(test_resultset.py:173-177): at position `index`, each key object of that
column is bound to `index`, then the positional key `index` is bound to
`index`. -/
def rowproxy_keymap_go : Nat → List (List RowKey) → Keymap → Keymap
  | _, [], m => m
  | index, keyobjs :: restKeys, m =>
      let m1 := keyobjs.foldl (fun acc key => (key, index) :: acc) m
      rowproxy_keymap_go (index + 1) restKeys ((RowKey.pos index, index) :: m1)

/-- The keymap built by `RowTest._rowproxy_fixture`
(test_resultset.py:163-178) from the per-column key lists. -/
def rowproxy_fixture_keymap (keys : List (List RowKey)) : Keymap :=
  rowproxy_keymap_go 0 keys []

/-- Keymap lookup: first (most recently written) binding of the key. -/
def keymap_lookup (m : Keymap) (k : RowKey) : Option Nat :=
  (m.find? (fun e => e.1 == k)).map (fun e => e.2)

/-- A Result Row: "an ordered, fixed-width tuple of values plus a key→index
mapping" (spec §3), as constructed by `row_cls(metadata, processors, keymap,
row)` in `RowTest._rowproxy_fixture`. -/
structure Row where
  keymap : Keymap
  values : List RowValue
deriving Repr

/-- Modelled from the spec: Result Row key lookup — the keymap "enabl[es]
lookup by column object, by column name, or by positional index" returning
"the value at the same index" (spec §3).  The row implementation
(`sqlalchemy/engine/result.py`) is not under `src/`; only its test fixture
is. -/
def Row.getByKey (r : Row) (k : RowKey) : Option RowValue :=
  (keymap_lookup r.keymap k).bind (fun i => r.values.get? i)

/-- Modelled from the spec: row iteration — "iteration order equals the
original cursor column order, not insertion order of aliases" (spec §3);
iteration reads the value tuple and never consults the keymap. -/
def Row.iterate (r : Row) : List RowValue :=
  r.values

/-- Claim C1: for every Result Row and every pair of keys that the row's
keymap maps to the same index, looking the row up by either key returns the
identical value (the value at that index), and iterating the row yields the
values in the original cursor column order, independent of the keymap and
hence of the order in which alias keys were added to it. -/
theorem row_alias_lookup_and_iteration_order (r : Row) (k1 k2 : RowKey)
    (i : Nat) (h1 : keymap_lookup r.keymap k1 = some i)
    (h2 : keymap_lookup r.keymap k2 = some i) :
    r.getByKey k1 = r.getByKey k2 ∧
    r.getByKey k1 = r.values.get? i ∧
    Row.iterate r = r.values ∧
    (∀ r' : Row, r'.values = r.values → Row.iterate r' = Row.iterate r) := by
  refine ⟨?_, ?_, rfl, fun r' h => by simp [Row.iterate, h]⟩
  · simp [Row.getByKey, h1, h2]
  · simp [Row.getByKey, h1]

/-- Witness for C1: the two-column fixture row of
`RowTest._test_getitem_value_refcounts_legacy` — keys `(col1, "a")` and
`(col2, "b")`, values `["x", "y"]` — where the column object `col 0` and the
name `"a"` both map to index `0`, so both lookups return `"x"`. -/
theorem row_alias_lookup_and_iteration_order_witness :
    keymap_lookup (rowproxy_fixture_keymap
        [[RowKey.col 0, RowKey.name "a"], [RowKey.col 1, RowKey.name "b"]])
        (RowKey.col 0) = some 0 ∧
    keymap_lookup (rowproxy_fixture_keymap
        [[RowKey.col 0, RowKey.name "a"], [RowKey.col 1, RowKey.name "b"]])
        (RowKey.name "a") = some 0 ∧
    (Row.mk (rowproxy_fixture_keymap
        [[RowKey.col 0, RowKey.name "a"], [RowKey.col 1, RowKey.name "b"]])
        ["x", "y"]).getByKey (RowKey.col 0)
      = (Row.mk (rowproxy_fixture_keymap
        [[RowKey.col 0, RowKey.name "a"], [RowKey.col 1, RowKey.name "b"]])
        ["x", "y"]).getByKey (RowKey.name "a") :=
  ⟨rfl, rfl,
   (row_alias_lookup_and_iteration_order
      (Row.mk (rowproxy_fixture_keymap
        [[RowKey.col 0, RowKey.name "a"], [RowKey.col 1, RowKey.name "b"]])
        ["x", "y"])
      (RowKey.col 0) (RowKey.name "a") 0 rfl rfl).1⟩

/-- A raw driver-raised error (a DBAPI exception), carrying its message. -/
structure DriverError where
  message : String
deriving DecidableEq, Repr

/-- The wrapped typed error (the `sqlalchemy.exc.StatementError` shape named
at interfaces.py:1381-1389): it carries the original driver error as its
preserved cause plus the statement and parameters that were executing
(spec §7). -/
structure StatementError where
  orig : DriverError
  statement : Option String
  parameters : Option Params
deriving DecidableEq, Repr

/-- `ExceptionContext` (interfaces.py:1318-1454): the in-flight
connection/engine/cursor/statement/parameters, the original driver error, the
wrapped typed error, a chained-handler result, the associated execution
context, and the two decision flags. -/
structure ExceptionContext where
  connection : Option Connection
  engine : Option Engine
  cursor : Option Cursor
  statement : Option String
  parameters : Option Params
  original_exception : Option DriverError
  sqlalchemy_exception : Option StatementError
  chained_exception : Option DriverError
  execution_context : Option Unit
  is_disconnect : Option Bool
  invalidate_pool_on_disconnect : Bool
deriving Repr

/-- The class-attribute defaults of `ExceptionContext`
(interfaces.py:1330-1454): every member is initialized to `None` —
including `is_disconnect = None` (line 1422) — except
`invalidate_pool_on_disconnect = True` (line 1437). -/
def ExceptionContext.fresh : ExceptionContext :=
  ⟨none, none, none, none, none, none, none, none, none, none, true⟩

/-- Claim C10: on a freshly constructed Exception Context, before the
dialect's disconnect heuristic and the handler chain have run, the
`is_disconnect` attribute is `None` — neither `True` nor `False` — a third
value outside the boolean type the spec assigns to the flag. -/
theorem fresh_exception_context_is_disconnect_none :
    ExceptionContext.fresh.is_disconnect = none ∧
    (∀ b : Bool, ExceptionContext.fresh.is_disconnect ≠ some b) :=
  ⟨rfl, fun _ h => Option.noConfusion h⟩

/-- The invalidation outcome of a disconnect condition: whether the offending
connection is invalidated, and whether the whole pool is. -/
structure InvalidationDecision where
  invalidate_connection : Bool
  invalidate_pool : Bool
deriving DecidableEq, Repr

/-- Modelled from the spec: Exception Translator step (5) — "if
`is_disconnect` is true after the chain runs, invalidate the connection, and
the full pool unless the flag says otherwise" (spec §4.5); the translator
implementation is not under `src/`. -/
def disconnect_invalidation (ctx : ExceptionContext) : InvalidationDecision :=
  match ctx.is_disconnect with
  | some true => ⟨true, ctx.invalidate_pool_on_disconnect⟩
  | _ => ⟨false, false⟩

/-- Claim C7: `invalidate_pool_on_disconnect` defaults to true on a newly
constructed Exception Context, and when a handler sets it to false, a
disconnect condition invalidates only the offending connection, not the
whole pool. -/
theorem invalidate_pool_flag_default_and_veto (ctx : ExceptionContext)
    (hdisc : ctx.is_disconnect = some true)
    (hflag : ctx.invalidate_pool_on_disconnect = false) :
    ExceptionContext.fresh.invalidate_pool_on_disconnect = true ∧
    disconnect_invalidation ctx = ⟨true, false⟩ := by
  refine ⟨rfl, ?_⟩
  simp [disconnect_invalidation, hdisc, hflag]

/-- Witness for C7: a context marked as a disconnect whose handler chain has
vetoed pool-wide invalidation; only the offending connection is
invalidated. -/
theorem invalidate_pool_flag_default_and_veto_witness :
    (⟨none, none, none, none, none, none, none, none, none, some true, false⟩
      : ExceptionContext).is_disconnect = some true ∧
    (⟨none, none, none, none, none, none, none, none, none, some true, false⟩
      : ExceptionContext).invalidate_pool_on_disconnect = false ∧
    disconnect_invalidation
      ⟨none, none, none, none, none, none, none, none, none, some true, false⟩
      = ⟨true, false⟩ :=
  ⟨rfl, rfl,
   (invalidate_pool_flag_default_and_veto
      ⟨none, none, none, none, none, none, none, none, none, some true, false⟩
      rfl rfl).2⟩

/-- Modelled from the spec: the Exception Translator constructing the
Exception Context for a raw driver error and the typed error ultimately
raised — "the final raised error always carries the original error as a
preserved cause, plus the statement and parameters that were executing (when
known)" (spec §7); `original_exception` "is always present"
(interfaces.py:1374-1379).  The translator implementation (the engine module'
s `_handle_dbapi_exception`) is not under `src/`.  `disc` is the dialect's
`is_disconnect` heuristic result. -/
def translate_exception (raw : DriverError) (conn : Option Connection)
    (eng : Engine) (cur : Option Cursor) (stmt : Option String)
    (params : Option Params) (disc : Bool) :
    ExceptionContext × StatementError :=
  let err : StatementError := ⟨raw, stmt, params⟩
  (⟨conn, some eng, cur, stmt, params, some raw, some err, none, none,
    some disc, true⟩,
   err)

/-- Claim C8: for every driver error raised during execution, the final typed
error raised to the caller carries the original driver error as a preserved
cause — the Exception Context's `original_exception` is always present — and
carries the statement text and parameters that were executing when they are
known. -/
theorem raised_error_preserves_original_cause (raw : DriverError)
    (conn : Option Connection) (eng : Engine) (cur : Option Cursor)
    (stmt : Option String) (params : Option Params) (disc : Bool) :
    ((translate_exception raw conn eng cur stmt params disc).1.original_exception
       = some raw) ∧
    ((translate_exception raw conn eng cur stmt params disc).2.orig = raw) ∧
    ((translate_exception raw conn eng cur stmt params disc).2.statement
       = stmt) ∧
    ((translate_exception raw conn eng cur stmt params disc).2.parameters
       = params) :=
  ⟨rfl, rfl, rfl, rfl⟩

/-- A DB-API driver module boundary: its module-level `connect` call (spec §6
"Driver Capability boundary": `connect(*args) → raw_connection`). -/
structure DBAPIModule where
  connect : List ConnArg → List (String × ConnArg) → DBAPIConnection

/-- Modelled from the spec: a driver connect call as an observable event —
the call is appended to a log of `(cargs, cparams)` pairs the driver has
received, and the driver's connection is returned. -/
def driver_connect_logged (dbapi : DBAPIModule)
    (log : List (List ConnArg × List (String × ConnArg)))
    (cargs : List ConnArg) (cparams : List (String × ConnArg)) :
    DBAPIConnection × List (List ConnArg × List (String × ConnArg)) :=
  (dbapi.connect cargs cparams, log ++ [(cargs, cparams)])

/-- Modelled from the spec: the default `Dialect.connect` — "default behavior
is 'pass args straight to the driver's connect call'" (spec §4.1); the
docstring at interfaces.py:687-690 gives the default implementation
`return self.dbapi.connect(*cargs, **cparams)`, whose code (the default
dialect) is not under `src/`.  It makes exactly one driver connect call with
its own arguments unchanged and returns that call's connection. -/
def default_connect (dbapi : DBAPIModule)
    (log : List (List ConnArg × List (String × ConnArg)))
    (cargs : List ConnArg) (cparams : List (String × ConnArg)) :
    DBAPIConnection × List (List ConnArg × List (String × ConnArg)) :=
  driver_connect_logged dbapi log cargs cparams

/-- Claim C5: for every tuple of positional and keyword connect arguments,
the default (non-overridden) `Dialect.connect` passes those arguments
straight to the driver's connect call — one call, arguments unmodified — and
returns the raw driver connection that the driver's connect call produces. -/
theorem default_connect_passes_args_straight (dbapi : DBAPIModule)
    (log : List (List ConnArg × List (String × ConnArg)))
    (cargs : List ConnArg) (cparams : List (String × ConnArg)) :
    (default_connect dbapi log cargs cparams).1 = dbapi.connect cargs cparams ∧
    (default_connect dbapi log cargs cparams).2 = log ++ [(cargs, cparams)] :=
  ⟨rfl, rfl⟩

/-- Modelled from the spec: a dialect class's class-level state — its name and
the type-mapping table, "cached per dialect *class*, not per instance"
(spec §3); `colspecs` "is class-level only and is not accessed from the
dialect instance itself" (interfaces.py:106-110). -/
structure DialectClass where
  name : String
  colspecs : GenericType → BackendType

/-- Modelled from the spec: a dialect instance — its class plus the lazily
populated connection-derived fields, the only mutable per-instance state
(spec §3: "server version info, default schema name"). -/
structure DialectInstance where
  cls : DialectClass
  server_version_info : Option (List Nat)
  default_schema_name : Option String

/-- Modelled from the spec: `type_descriptor(generic_type) → backend_type`, a
classmethod (interfaces.py:183-184) and a "pure function of the *class*"
(spec §4.1): it consults only class-level state. -/
def DialectClass.type_descriptor (cls : DialectClass)
    (typeobj : GenericType) : BackendType :=
  cls.colspecs typeobj

/-- Invoking `type_descriptor` through a dialect instance: Python dispatches
a classmethod to the instance's class; the call returns the descriptor and
the (unchanged) instance. -/
def DialectInstance.type_descriptor_call (d : DialectInstance)
    (typeobj : GenericType) : BackendType × DialectInstance :=
  (d.cls.type_descriptor typeobj, d)

/-- Claim C6: `type_descriptor` is a pure function of the class-level type —
two calls with the same generic type on the same dialect class return equal
backend-type descriptors even from instances whose per-instance state
differs, and neither call reads or mutates dialect-instance state (each call
leaves its instance unchanged). -/
theorem type_descriptor_pure_function_of_class (d1 d2 : DialectInstance)
    (t : GenericType) (hcls : d1.cls = d2.cls) :
    (d1.type_descriptor_call t).1 = (d2.type_descriptor_call t).1 ∧
    (d1.type_descriptor_call t).2 = d1 ∧
    (d2.type_descriptor_call t).2 = d2 := by
  refine ⟨?_, rfl, rfl⟩
  simp [DialectInstance.type_descriptor_call, DialectClass.type_descriptor,
    hcls]

/-- Witness for C6: two instances of the same dialect class, one fresh and
one already initialized with server version info and a default schema name,
agree on the descriptor of generic type `5`. -/
theorem type_descriptor_pure_function_of_class_witness :
    (⟨⟨"sqlite", fun t => t + 100⟩, none, none⟩
        : DialectInstance).cls.name
      = (⟨⟨"sqlite", fun t => t + 100⟩, some [3, 32], some "main"⟩
        : DialectInstance).cls.name ∧
    ((⟨⟨"sqlite", fun t => t + 100⟩, none, none⟩
        : DialectInstance).type_descriptor_call 5).1
      = ((⟨⟨"sqlite", fun t => t + 100⟩, some [3, 32], some "main"⟩
        : DialectInstance).type_descriptor_call 5).1 :=
  ⟨rfl,
   (type_descriptor_pure_function_of_class
      ⟨⟨"sqlite", fun t => t + 100⟩, none, none⟩
      ⟨⟨"sqlite", fun t => t + 100⟩, some [3, 32], some "main"⟩
      5 rfl).1⟩

/-- Modelled from the spec: one catalog fact — an index defined on a table,
with the index record shape of spec §6 (`{name, column_names, unique}`). -/
structure CatalogIndexEntry where
  schema : Option String
  table : String
  index : IndexRecord
deriving DecidableEq, Repr

/-- Modelled from the spec: the backend catalog as observed through a
connection — which `(schema, table)` pairs exist and which indexes are
defined on them (spec §4.1 catalog introspection methods). -/
structure Catalog where
  tables : List (Option String × String)
  index_entries : List CatalogIndexEntry
deriving DecidableEq, Repr

/-- Modelled from the spec: a concrete backend's `has_table` — "return True
if the given table (possibly within the specified schema) exists in the
database, False otherwise" (interfaces.py:434-441). -/
def catalog_has_table (cat : Catalog) (connection : Connection)
    (table_name : String) (schema : Option String) : Bool :=
  cat.tables.contains (schema, table_name)

/-- Modelled from the spec: a concrete backend's `get_indexes` — "return
index information as a list of dictionaries" for the given table
(interfaces.py:331-346). -/
def catalog_get_indexes (cat : Catalog) (connection : Connection)
    (table_name : String) (schema : Option String) : List IndexRecord :=
  (cat.index_entries.filter
      (fun e => e.schema == schema && e.table == table_name)).map
    (fun e => e.index)

/-- Modelled from the spec: the generic `has_index` fallback — "derivable by
combining `has_table` and `get_indexes`" (spec §4.1); interfaces.py:452-454
says the default dialect "implements this in terms of ... `has_table` and
... `get_indexes`", but that implementation (the default dialect) is not
under `src/`.  True exactly when the table exists and `get_indexes` reports
an index of the given name on it. -/
def generic_has_index (cat : Catalog) (connection : Connection)
    (table_name : String) (index_name : String) (schema : Option String) :
    Bool :=
  catalog_has_table cat connection table_name schema &&
  (catalog_get_indexes cat connection table_name schema).any
    (fun r => r.name == index_name)

/-- Modelled from the spec: a dialect-provided direct override of `has_index`
— "a backend may override with a cheaper direct query" (spec §4.1): one
direct catalog query for an index of the given name on the given table. -/
def direct_has_index (cat : Catalog) (connection : Connection)
    (table_name : String) (index_name : String) (schema : Option String) :
    Bool :=
  cat.index_entries.any
    (fun e => e.schema == schema && e.table == table_name
      && e.index.name == index_name)

/-- Catalog well-formedness: indexes are defined only on existing tables. -/
def Catalog.wf (cat : Catalog) : Prop :=
  ∀ e ∈ cat.index_entries, (e.schema, e.table) ∈ cat.tables

instance (cat : Catalog) : Decidable cat.wf :=
  List.decidableBAll _ cat.index_entries

/-- Claim C9: the generic (non-overridden) `has_index` computes its boolean
answer solely from `has_table` and `get_indexes` — true exactly when the
table exists and `get_indexes` reports an index of the given name on it —
and, on a well-formed catalog, this answer equals the answer of a
dialect-provided direct override for the same inputs. -/
theorem generic_has_index_matches_direct_override (cat : Catalog)
    (conn : Connection) (table_name index_name : String)
    (schema : Option String) (hwf : cat.wf) :
    (generic_has_index cat conn table_name index_name schema
      = (catalog_has_table cat conn table_name schema &&
         (catalog_get_indexes cat conn table_name schema).any
           (fun r => r.name == index_name))) ∧
    generic_has_index cat conn table_name index_name schema
      = direct_has_index cat conn table_name index_name schema := by
  refine ⟨rfl, ?_⟩
  have hiff : generic_has_index cat conn table_name index_name schema = true
      ↔ direct_has_index cat conn table_name index_name schema = true := by
    simp only [generic_has_index, direct_has_index, catalog_has_table,
      catalog_get_indexes, Bool.and_eq_true, List.any_eq_true,
      List.mem_map, List.mem_filter]
    constructor
    · rintro ⟨htbl, r, ⟨e, ⟨hmem, hsch, htab⟩, hr⟩, hname⟩
      exact ⟨e, hmem, ⟨hsch, htab⟩, by rw [hr]; exact hname⟩
    · rintro ⟨e, hmem, ⟨hsch, htab⟩, hname⟩
      refine ⟨?_, e.index, ⟨e, ⟨hmem, hsch, htab⟩, rfl⟩, hname⟩
      have hmem2 := hwf e hmem
      have hsch2 : e.schema = schema := by simpa using hsch
      have htab2 : e.table = table_name := by simpa using htab
      rw [hsch2, htab2] at hmem2
      simp [hmem2]
  cases hg : generic_has_index cat conn table_name index_name schema with
  | true => exact (hiff.mp hg).symm ▸ rfl
  | false =>
      cases hd : direct_has_index cat conn table_name index_name schema with
      | true => exact absurd (hiff.mpr hd) (by simp [hg])
      | false => rfl

/-- Witness for C9: a catalog holding table `t1` with index `ix1`; the
generic fallback and the direct override agree that `ix1` exists on `t1` and
that `ix2` does not. -/
theorem generic_has_index_matches_direct_override_witness :
    (Catalog.mk [(none, "t1")] [⟨none, "t1", ⟨"ix1", ["c"], false⟩⟩]).wf ∧
    generic_has_index
        (Catalog.mk [(none, "t1")] [⟨none, "t1", ⟨"ix1", ["c"], false⟩⟩])
        ⟨0⟩ "t1" "ix1" none
      = direct_has_index
        (Catalog.mk [(none, "t1")] [⟨none, "t1", ⟨"ix1", ["c"], false⟩⟩])
        ⟨0⟩ "t1" "ix1" none ∧
    generic_has_index
        (Catalog.mk [(none, "t1")] [⟨none, "t1", ⟨"ix1", ["c"], false⟩⟩])
        ⟨0⟩ "t1" "ix1" none = true :=
  ⟨by decide,
   (generic_has_index_matches_direct_override
      (Catalog.mk [(none, "t1")] [⟨none, "t1", ⟨"ix1", ["c"], false⟩⟩])
      ⟨0⟩ "t1" "ix1" none (by decide)).2,
   by decide⟩
